import Mathlib

set_option maxRecDepth 100000

/-!
Verification of the webhook dispatcher in `src/webhook/app.py`.

The development shallowly embeds the Python module: header maps become
association lists, raw bodies become byte lists (`List Nat`, each entry
below 256), Python exceptions become `Except String`, and the downstream
CodePipeline client becomes an explicit function parameter.  Library
collaborators (`hashlib`/`hmac`, `json.loads`, `urllib.parse.parse_qs`,
`base64.b64decode`, UTF-8 codecs) are implemented concretely so that every
definition is executable; modelling notes are attached where CPython edge
behaviour is wider than the model (floats in JSON, non-ASCII case mapping).
-/

/-! ## Python string primitives, modelled on `List Char` -/

/-- Lexicographic comparison of character lists by code point, the order
`sorted` uses on Python strings. -/
def lexLe : List Char → List Char → Bool
  | [], _ => true
  | _ :: _, [] => false
  | a :: as, b :: bs =>
    if a.toNat < b.toNat then true
    else if b.toNat < a.toNat then false
    else lexLe as bs

/-- Lexicographic order on strings by code point (Python string order). -/
def strLeP (a b : String) : Prop := lexLe a.data b.data = true

instance : DecidableRel strLeP := fun _ _ => inferInstanceAs (Decidable (_ = true))

theorem lexLe_total : ∀ a b : List Char, lexLe a b = true ∨ lexLe b a = true := by
  intro a
  induction a with
  | nil => intro b; left; rfl
  | cons x xs ih =>
    intro b
    cases b with
    | nil => right; rfl
    | cons y ys =>
      by_cases h₁ : x.toNat < y.toNat
      · left; simp [lexLe, h₁]
      · by_cases h₂ : y.toNat < x.toNat
        · right; simp [lexLe, h₂]
        · rcases ih ys with h | h
          · left; simp [lexLe, h₁, h₂, h]
          · right; simp [lexLe, h₁, h₂, h]

theorem char_eq_of_toNat_eq : ∀ c d : Char, c.toNat = d.toNat → c = d := by
  intro c d h
  apply Char.eq_of_val_eq
  cases c with
  | mk v hv =>
    cases d with
    | mk w hw =>
      show v = w
      cases v with
      | mk bv =>
        cases w with
        | mk bw =>
          congr 1
          apply BitVec.eq_of_toNat_eq
          simpa [Char.toNat, UInt32.toNat] using h

theorem lexLe_trans : ∀ a b c : List Char,
    lexLe a b = true → lexLe b c = true → lexLe a c = true := by
  intro a
  induction a with
  | nil => intro b c _ _; rfl
  | cons x xs ih =>
    intro b c hab hbc
    cases b with
    | nil => simp [lexLe] at hab
    | cons y ys =>
      cases c with
      | nil => simp [lexLe] at hbc
      | cons z zs =>
        simp only [lexLe] at hab hbc ⊢
        by_cases h1 : x.toNat < y.toNat
        · by_cases h2 : y.toNat < z.toNat
          · have hxz : x.toNat < z.toNat := by omega
            simp [hxz]
          · by_cases h3 : z.toNat < y.toNat
            · rw [if_neg h2, if_pos h3] at hbc; exact absurd hbc (by simp)
            · have hxz : x.toNat < z.toNat := by omega
              simp [hxz]
        · by_cases h1' : y.toNat < x.toNat
          · rw [if_neg h1, if_pos h1'] at hab; exact absurd hab (by simp)
          · rw [if_neg h1, if_neg h1'] at hab
            by_cases h2 : y.toNat < z.toNat
            · have hxz : x.toNat < z.toNat := by omega
              simp [hxz]
            · by_cases h3 : z.toNat < y.toNat
              · rw [if_neg h2, if_pos h3] at hbc; exact absurd hbc (by simp)
              · rw [if_neg h2, if_neg h3] at hbc
                have h4 : ¬ x.toNat < z.toNat := by omega
                have h5 : ¬ z.toNat < x.toNat := by omega
                rw [if_neg h4, if_neg h5]
                exact ih ys zs hab hbc

theorem lexLe_antisymm : ∀ a b : List Char,
    lexLe a b = true → lexLe b a = true → a = b := by
  intro a
  induction a with
  | nil =>
    intro b _ hba
    cases b with
    | nil => rfl
    | cons y ys => simp [lexLe] at hba
  | cons x xs ih =>
    intro b hab hba
    cases b with
    | nil => simp [lexLe] at hab
    | cons y ys =>
      simp only [lexLe] at hab hba
      by_cases hxy : x.toNat < y.toNat
      · have hyx : ¬ y.toNat < x.toNat := by omega
        rw [if_neg hyx, if_pos hxy] at hba; exact absurd hba (by simp)
      · by_cases hyx : y.toNat < x.toNat
        · rw [if_neg hxy, if_pos hyx] at hab; exact absurd hab (by simp)
        · have hx : x = y := char_eq_of_toNat_eq x y (by omega)
          subst hx
          rw [if_neg hxy, if_neg hyx] at hab hba
          have := ih ys hab hba
          rw [this]

instance : IsTotal String strLeP := ⟨fun a b => lexLe_total a.data b.data⟩

instance : IsTrans String strLeP := ⟨fun a b c => lexLe_trans a.data b.data c.data⟩

instance : IsAntisymm String strLeP :=
  ⟨fun a b hab hba => by
    cases a with
    | mk da =>
      cases b with
      | mk db =>
        have : da = db := lexLe_antisymm da db hab hba
        rw [this]⟩

/-- Model of Python `needle in haystack` (contiguous substring test) at the
character-list level. -/
def subIn (n : List Char) : List Char → Bool
  | [] => n.isEmpty
  | c :: t => n.isPrefixOf (c :: t) || subIn n t

/-- Model of Python `needle in haystack` on strings. -/
def strContains (hay needle : String) : Bool := subIn needle.data hay.data

/-- Model of Python `s.startswith(p)`. -/
def pyStartswith (s p : String) : Bool := p.data.isPrefixOf s.data

/-- Model of Python `str.lower` (ASCII letters; the header names and content
types compared by the source are ASCII). -/
def pyLower (s : String) : String := ⟨s.data.map Char.toLower⟩

/-- Model of Python `str.upper` (ASCII letters). -/
def pyUpper (s : String) : String := ⟨s.data.map Char.toUpper⟩

/-- Whitespace recognised by Python `str.strip` (ASCII subset). -/
def pyIsSpace (c : Char) : Bool :=
  c = ' ' || c = '\t' || c = '\n' || c = '\r' || c.toNat = 11 || c.toNat = 12

/-- Model of Python `str.strip()`. -/
def pyStrip (s : String) : String :=
  ⟨((s.data.dropWhile pyIsSpace).reverse.dropWhile pyIsSpace).reverse⟩

/-- Model of Python `s.split(";")[0]`. -/
def takeBeforeSemi (s : String) : String := ⟨s.data.takeWhile (· ≠ ';')⟩

/-! ## Header maps (Python dicts of strings) -/

/-- Python `dict.get` on a string-to-string dict, modelled as first-match
association-list lookup (dict keys are unique, so first match is the match). -/
def dictGet (m : List (String × String)) (k : String) : Option String :=
  match m with
  | [] => none
  | (k', v) :: rest => if k = k' then some v else dictGet rest k

/-- Python `a or b` restricted to optional strings: `None` and the empty
string are falsy, anything else is returned as is. -/
def pyOrOpt (a b : Option String) : Option String :=
  match a with
  | some s => if s = "" then b else some s
  | none => b

/-- Python `a or d` where `d` is a string default. -/
def pyOrDefault (a : Option String) (d : String) : String :=
  match a with
  | some s => if s = "" then d else s
  | none => d

/-- Line 23-24 of `src/webhook/app.py`:
`headers.get(name) or headers.get(name.lower()) or headers.get(name.upper())`. -/
def _get_header (headers : List (String × String)) (name : String) : Option String :=
  pyOrOpt (dictGet headers name)
    (pyOrOpt (dictGet headers (pyLower name)) (dictGet headers (pyUpper name)))

/-! ## Routing policy (`_determine_pipelines_to_trigger`, lines 73-91) -/

/-- Line 83: `any('layers/shared/' in f for f in changed_files)`. -/
def shared_changed (changed_files : List String) : Bool :=
  changed_files.any (fun f => strContains f "layers/shared/")

/-- Lines 73-91 of `src/webhook/app.py`.  The Python function fills a `set`
and returns `list(pipelines)`; the set contents are determined by the two
membership tests below, and this definition lists them in insertion order.
CPython set iteration order is unspecified (hash-randomised); the relation
`determineOutputs` models that the surfaced list may be any permutation of
the set. -/
def _determine_pipelines_to_trigger (changed_files : List String) : List String :=
  (if shared_changed changed_files || changed_files.any (fun f => strContains f "lambda1/")
   then ["lambda1-pipeline"] else []) ++
  (if shared_changed changed_files || changed_files.any (fun f => strContains f "lambda2/")
   then ["lambda2-pipeline"] else [])

/-- The possible results of `list(pipelines)` at line 91: any iteration order
of the computed set. -/
def determineOutputs (changed_files : List String) (out : List String) : Prop :=
  out.Perm (_determine_pipelines_to_trigger changed_files)

/-! ## JSON values (results of Python `json.loads`) -/

/-- JSON values as produced by `json.loads`.  Numbers are modelled as
integers: the payloads the dispatcher consumes carry no fractional numbers,
and the JSON parser model below rejects them. -/
inductive Json where
  | null : Json
  | bool (b : Bool) : Json
  | num (n : Int) : Json
  | str (s : String) : Json
  | arr (elems : List Json) : Json
  | obj (fields : List (String × Json)) : Json

/-- First-match association lookup inside a JSON object (dict keys are
unique in Python, so first match is the match). -/
def jsonLookup (fields : List (String × Json)) (k : String) : Option Json :=
  match fields with
  | [] => none
  | (k', v) :: rest => if k = k' then some v else jsonLookup rest k

/-- Python truthiness on JSON values: `None`, `False`, `0`, `""`, `[]` and
`{}` are falsy. -/
def pyTruthy : Json → Bool
  | .null => false
  | .bool b => b
  | .num n => n != 0
  | .str s => match s.data with | [] => false | _ => true
  | .arr es => match es with | [] => false | _ => true
  | .obj fs => match fs with | [] => false | _ => true

/-- Python `payload.get(k, default)`: raises `AttributeError` when the
receiver is not a dict. -/
def pyDictGetD (v : Json) (k : String) (d : Json) : Except String Json :=
  match v with
  | .obj fs => .ok ((jsonLookup fs k).getD d)
  | _ => .error "AttributeError: value has no attribute get"

/-- Python `payload.get(k)` (default `None`). -/
def pyDictGet (v : Json) (k : String) : Except String Json :=
  pyDictGetD v k .null

/-- Python `for x in v`: lists yield their elements, strings their
one-character substrings, dicts their keys; other truthy values raise
`TypeError`. -/
def pyIterJson : Json → Except String (List Json)
  | .arr es => .ok es
  | .str s => .ok (s.data.map (fun c => Json.str ⟨[c]⟩))
  | .obj fs => .ok (fs.map (fun f => Json.str f.1))
  | _ => .error "TypeError: value is not iterable"

/-! ## Change extractor (`_changed_files_from_push_payload`, lines 61-71) -/

/-- Python `sorted(set(files))`: deduplicate, then sort lexicographically by
code point. -/
def pySortedSet (l : List String) : List String :=
  List.insertionSort strLeP l.dedup

/-- A path entry drawn from a kind list.  Set elements must be sortable
together at line 71, and paths are strings, so non-string entries are
modelled as a `TypeError`. -/
def asPathStr : Json → Except String String
  | .str s => .ok s
  | _ => .error "TypeError: path entries must be strings"

/-- The paths contributed by one commit record for one kind `k`:
`c.get(k, []) or []`, iterated. -/
def kindPaths (c : Json) (k : String) : Except String (List String) := do
  let v ← pyDictGetD c k (.arr [])
  let items ← pyIterJson (if pyTruthy v then v else .arr [])
  items.mapM asPathStr

/-- The paths contributed by one commit record, over the three kinds of
line 68. -/
def commitPathsJson (c : Json) : Except String (List String) := do
  let a ← kindPaths c "added"
  let m ← kindPaths c "modified"
  let r ← kindPaths c "removed"
  pure (a ++ m ++ r)

/-- Lines 61-71 of `src/webhook/app.py`: collect `added`, `modified` and
`removed` paths of every commit into a set and return it sorted. -/
def _changed_files_from_push_payload (payload : Json) : Except String (List String) := do
  let commitsRaw ← pyDictGetD payload "commits" (.arr [])
  let commits ← pyIterJson (if pyTruthy commitsRaw then commitsRaw else .arr [])
  let pathLists ← commits.mapM commitPathsJson
  pure (pySortedSet pathLists.flatten)

/-! ## Structured push payloads (the spec data model, for quantification) -/

/-- A commit record of a push payload: three optional lists of path strings
(`added`, `modified`, `removed`); an absent list models an absent key. -/
structure CommitRec where
  added : Option (List String)
  modified : Option (List String)
  removed : Option (List String)

/-- JSON encoding of one optional kind list. -/
def optField (k : String) : Option (List String) → List (String × Json)
  | none => []
  | some l => [(k, Json.arr (l.map Json.str))]

/-- JSON encoding of a commit record. -/
def commitJson (c : CommitRec) : Json :=
  Json.obj (optField "added" c.added ++ optField "modified" c.modified ++ optField "removed" c.removed)

/-- JSON encoding of a push payload: a `commits` list, or no `commits` key
at all. -/
def pushJson : Option (List CommitRec) → Json
  | none => Json.obj []
  | some cs => Json.obj [("commits", Json.arr (cs.map commitJson))]

/-- All paths of a commit record, in payload order. -/
def commitPaths (c : CommitRec) : List String :=
  c.added.getD [] ++ c.modified.getD [] ++ c.removed.getD []

/-- All paths of a push payload, in payload order. -/
def allPaths (ocs : Option (List CommitRec)) : List String :=
  ((ocs.getD []).map commitPaths).flatten

/-! ## SHA-256 and HMAC (models of `hashlib.sha256` and `hmac.new`) -/

/-- 32-bit rotate right on a `Nat` below `2^32`. -/
def ror32 (x n : Nat) : Nat :=
  ((x >>> n) ||| (x <<< (32 - n))) % 4294967296

/-- SHA-256 round constants. -/
def shaK : List Nat :=
  [1116352408, 1899447441, 3049323471, 3921009573, 961987163,
   1508970993, 2453635748, 2870763221, 3624381080, 310598401,
   607225278, 1426881987, 1925078388, 2162078206, 2614888103,
   3248222580, 3835390401, 4022224774, 264347078, 604807628,
   770255983, 1249150122, 1555081692, 1996064986, 2554220882,
   2821834349, 2952996808, 3210313671, 3336571891, 3584528711,
   113926993, 338241895, 666307205, 773529912, 1294757372,
   1396182291, 1695183700, 1986661051, 2177026350, 2456956037,
   2730485921, 2820302411, 3259730800, 3345764771, 3516065817,
   3600352804, 4094571909, 275423344, 430227734, 506948616,
   659060556, 883997877, 958139571, 1322822218, 1537002063,
   1747873779, 1955562222, 2024104815, 2227730452, 2361852424,
   2428436474, 2756734187, 3204031479, 3329325298]

/-- SHA-256 initial hash value. -/
def shaH0 : List Nat :=
  [1779033703, 3144134277, 1013904242, 2773480762,
   1359893119, 2600822924, 528734635, 1541459225]

/-- Message-schedule extension: given the reversed schedule so far, push the
next word 48 times. -/
def shaExtend : Nat → List Nat → List Nat
  | 0, acc => acc
  | n + 1, acc =>
    let g := fun i => acc.getD i 0
    let s0 := ror32 (g 14) 7 ^^^ ror32 (g 14) 18 ^^^ (g 14 >>> 3)
    let s1 := ror32 (g 1) 17 ^^^ ror32 (g 1) 19 ^^^ (g 1 >>> 10)
    shaExtend n (((g 15 + s0 + g 6 + s1) % 4294967296) :: acc)

/-- Working state of the SHA-256 compression function. -/
structure Sha8 where
  a : Nat
  b : Nat
  c : Nat
  d : Nat
  e : Nat
  f : Nat
  g : Nat
  hh : Nat

/-- One SHA-256 round. -/
def shaRound (st : Sha8) (wk : Nat × Nat) : Sha8 :=
  let S1 := ror32 st.e 6 ^^^ ror32 st.e 11 ^^^ ror32 st.e 25
  let ch := (st.e &&& st.f) ^^^ ((4294967295 - st.e) &&& st.g)
  let t1 := st.hh + S1 + ch + wk.2 + wk.1
  let S0 := ror32 st.a 2 ^^^ ror32 st.a 13 ^^^ ror32 st.a 22
  let mj := (st.a &&& st.b) ^^^ (st.a &&& st.c) ^^^ (st.b &&& st.c)
  let t2 := S0 + mj
  ⟨(t1 + t2) % 4294967296, st.a, st.b, st.c, (st.d + t1) % 4294967296, st.e, st.f, st.g⟩

/-- Pack four bytes big-endian into one 32-bit word, 16 words per block. -/
def shaWords : Nat → List Nat → List Nat
  | 0, _ => []
  | _ + 1, [] => []
  | n + 1, bs =>
    (bs.getD 0 0 * 16777216 + bs.getD 1 0 * 65536 + bs.getD 2 0 * 256 + bs.getD 3 0)
      :: shaWords n (bs.drop 4)

/-- Compress one 64-byte block into the running hash (a list of 8 words). -/
def shaCompress (h : List Nat) (block : List Nat) : List Nat :=
  let w16 := shaWords 16 block
  let w := (shaExtend 48 w16.reverse).reverse
  let st0 : Sha8 := ⟨h.getD 0 0, h.getD 1 0, h.getD 2 0, h.getD 3 0,
                     h.getD 4 0, h.getD 5 0, h.getD 6 0, h.getD 7 0⟩
  let st := (w.zip shaK).foldl shaRound st0
  [(h.getD 0 0 + st.a) % 4294967296, (h.getD 1 0 + st.b) % 4294967296,
   (h.getD 2 0 + st.c) % 4294967296, (h.getD 3 0 + st.d) % 4294967296,
   (h.getD 4 0 + st.e) % 4294967296, (h.getD 5 0 + st.f) % 4294967296,
   (h.getD 6 0 + st.g) % 4294967296, (h.getD 7 0 + st.hh) % 4294967296]

/-- Split a byte list into 64-byte blocks (fuelled, fuel bounds the number of
blocks). -/
def shaBlocks : Nat → List Nat → List (List Nat)
  | 0, _ => []
  | _ + 1, [] => []
  | fuel + 1, bs => bs.take 64 :: shaBlocks fuel (bs.drop 64)

/-- Big-endian bytes of `n`, `k` bytes wide. -/
def beBytes : Nat → Nat → List Nat
  | 0, _ => []
  | k + 1, n => (n >>> (8 * k)) % 256 :: beBytes k n

/-- SHA-256 of a byte list, returning the 32 digest bytes. -/
def sha256 (msg : List Nat) : List Nat :=
  let len := msg.length
  let padZeros := (119 - len % 64) % 64
  let padded := msg ++ 0x80 :: List.replicate padZeros 0 ++ beBytes 8 (len * 8)
  let final := (shaBlocks (padded.length / 64 + 1) padded).foldl shaCompress shaH0
  final.flatMap (beBytes 4)

/-- Lower-case hex digit. -/
def hexDigit (n : Nat) : Char :=
  if n < 10 then Char.ofNat (48 + n) else Char.ofNat (87 + n)

/-- Lower-case hex rendering of a byte list (model of `.hexdigest()`). -/
def bytesToHex (bs : List Nat) : String :=
  ⟨bs.flatMap (fun b => [hexDigit (b / 16 % 16), hexDigit (b % 16)])⟩

/-- HMAC-SHA256 (model of `hmac.new(key, msg, hashlib.sha256).digest()`). -/
def hmacSha256 (key msg : List Nat) : List Nat :=
  let k0 := if 64 < key.length then sha256 key else key
  let kpad := k0 ++ List.replicate (64 - k0.length) 0
  let ipad := kpad.map (fun b => b ^^^ 0x36)
  let opad := kpad.map (fun b => b ^^^ 0x5c)
  sha256 (opad ++ sha256 (ipad ++ msg))

/-- Model of `hmac.new(key, msg, hashlib.sha256).hexdigest()`. -/
def hmacSha256Hex (key msg : List Nat) : String :=
  bytesToHex (hmacSha256 key msg)

/-! ## UTF-8 codecs -/

/-- UTF-8 encoding of one character (model of `str.encode("utf-8")`). -/
def utf8EncodeChar (c : Char) : List Nat :=
  let n := c.toNat
  if n < 0x80 then [n]
  else if n < 0x800 then [0xC0 + n / 64, 0x80 + n % 64]
  else if n < 0x10000 then [0xE0 + n / 4096, 0x80 + n / 64 % 64, 0x80 + n % 64]
  else [0xF0 + n / 262144, 0x80 + n / 4096 % 64, 0x80 + n / 64 % 64, 0x80 + n % 64]

/-- UTF-8 encoding of a string (model of `str.encode("utf-8")`). -/
def utf8Encode (s : String) : List Nat := s.data.flatMap utf8EncodeChar

/-- Continuation-byte test. -/
def utf8Cont (b : Nat) : Bool := 0x80 ≤ b && b < 0xC0

/-- UTF-8 decoding with U+FFFD replacement, one replacement per maximal
invalid subpart (model of `bytes.decode("utf-8", errors="replace")`). -/
def utf8DecodeChars : Nat → List Nat → List Char
  | 0, _ => []
  | _ + 1, [] => []
  | fuel + 1, b :: rest =>
    if b < 0x80 then Char.ofNat b :: utf8DecodeChars fuel rest
    else if b < 0xC2 then Char.ofNat 0xFFFD :: utf8DecodeChars fuel rest
    else if b < 0xE0 then
      match rest with
      | b1 :: rest1 =>
        if utf8Cont b1 then Char.ofNat ((b - 0xC0) * 64 + (b1 - 0x80)) :: utf8DecodeChars fuel rest1
        else Char.ofNat 0xFFFD :: utf8DecodeChars fuel rest
      | [] => [Char.ofNat 0xFFFD]
    else if b < 0xF0 then
      match rest with
      | b1 :: b2 :: rest2 =>
        if (utf8Cont b1 && utf8Cont b2
            && (b != 0xE0 || 0xA0 ≤ b1) && (b != 0xED || b1 < 0xA0)) then
          Char.ofNat ((b - 0xE0) * 4096 + (b1 - 0x80) * 64 + (b2 - 0x80))
            :: utf8DecodeChars fuel rest2
        else Char.ofNat 0xFFFD :: utf8DecodeChars fuel rest
      | _ => [Char.ofNat 0xFFFD]
    else if b < 0xF5 then
      match rest with
      | b1 :: b2 :: b3 :: rest3 =>
        if (utf8Cont b1 && utf8Cont b2 && utf8Cont b3
            && (b != 0xF0 || 0x90 ≤ b1) && (b != 0xF4 || b1 < 0x90)) then
          Char.ofNat ((b - 0xF0) * 262144 + (b1 - 0x80) * 4096 + (b2 - 0x80) * 64 + (b3 - 0x80))
            :: utf8DecodeChars fuel rest3
        else Char.ofNat 0xFFFD :: utf8DecodeChars fuel rest
      | _ => [Char.ofNat 0xFFFD]
    else Char.ofNat 0xFFFD :: utf8DecodeChars fuel rest

/-- Model of `raw_body.decode("utf-8", errors="replace")`. -/
def utf8DecodeReplace (bs : List Nat) : String :=
  ⟨utf8DecodeChars bs.length bs⟩

/-! ## Base64 transport decoding (model of `base64.b64decode`) -/

/-- Value of one base64 alphabet character. -/
def b64Val (c : Char) : Option Nat :=
  if 'A' ≤ c && c ≤ 'Z' then some (c.toNat - 65)
  else if 'a' ≤ c && c ≤ 'z' then some (c.toNat - 97 + 26)
  else if '0' ≤ c && c ≤ '9' then some (c.toNat - 48 + 52)
  else if c = '+' then some 62
  else if c = '/' then some 63
  else none

/-- Decode a run of base64 data values (fuelled on groups of four). -/
def b64Groups : Nat → List Nat → List Nat
  | 0, _ => []
  | fuel + 1, v0 :: v1 :: v2 :: v3 :: rest =>
    (v0 * 4 + v1 / 16) :: (v1 % 16 * 16 + v2 / 4) :: (v2 % 4 * 64 + v3)
      :: b64Groups fuel rest
  | _ + 1, [v0, v1] => [v0 * 4 + v1 / 16]
  | _ + 1, [v0, v1, v2] => [v0 * 4 + v1 / 16, v1 % 16 * 16 + v2 / 4]
  | _ + 1, _ => []

/-- Model of `base64.b64decode` with default lenient validation: characters
outside the alphabet (including `=` padding) are discarded, then the count of
data characters must not be 1 more than a multiple of 4, and a final group of
2 or 3 characters is accepted as if padded (CPython raises
`binascii.Error("Invalid padding")` when padding is entirely absent for a
partial group; that stricter case is folded into the same error here). -/
def b64decode (s : String) : Except String (List Nat) :=
  let data := s.data.filterMap b64Val
  let pads := (s.data.filter (· = '=')).length
  if data.length % 4 == 1 then
    .error "binascii.Error: Invalid base64-encoded string"
  else if data.length % 4 == 0 || 0 < pads then
    .ok (b64Groups (data.length / 4 + 1) data)
  else
    .error "binascii.Error: Incorrect padding"

/-! ## Form decoding (models of `urllib.parse.parse_qs` / `unquote_plus`) -/

/-- Hex digit value. -/
def hexVal (c : Char) : Option Nat :=
  if '0' ≤ c && c ≤ '9' then some (c.toNat - 48)
  else if 'a' ≤ c && c ≤ 'f' then some (c.toNat - 87)
  else if 'A' ≤ c && c ≤ 'F' then some (c.toNat - 55)
  else none

/-- Collect a maximal run of `%XX` escapes into bytes, returning the bytes
and the remaining characters. -/
def pctRun : Nat → List Char → List Nat × List Char
  | 0, cs => ([], cs)
  | fuel + 1, cs =>
    match cs with
    | '%' :: h1 :: h2 :: rest =>
      match hexVal h1, hexVal h2 with
      | some a, some b =>
        let (bs, r) := pctRun fuel rest
        ((a * 16 + b) :: bs, r)
      | _, _ => ([], cs)
    | _ => ([], cs)

/-- Core of `unquote_plus`: `+` becomes a space, each maximal `%XX` run is
UTF-8-decoded with replacement, malformed escapes stay literal. -/
def uqChars : Nat → List Char → List Char
  | 0, _ => []
  | _ + 1, [] => []
  | fuel + 1, c :: rest =>
    if c = '%' then
      match pctRun (rest.length + 1) (c :: rest) with
      | ([], _) => '%' :: uqChars fuel rest
      | (bs, rest') => utf8DecodeChars bs.length bs ++ uqChars fuel rest'
    else (if c = '+' then ' ' else c) :: uqChars fuel rest

/-- Model of `urllib.parse.unquote_plus`. -/
def unquotePlus (s : String) : String := ⟨uqChars s.data.length s.data⟩

/-- Split a character list on a separator character. -/
def splitChar (sep : Char) : List Char → List (List Char)
  | [] => [[]]
  | c :: rest =>
    match splitChar sep rest with
    | cur :: tail => if c = sep then [] :: cur :: tail else (c :: cur) :: tail
    | [] => [[c]]

/-- Model of `urllib.parse.parse_qsl(body, keep_blank_values=True)`: split on
`&`, split each non-empty pair on the first `=` (a pair without `=` keeps a
blank value), unquote names and values. -/
def parseQsl (s : String) : List (String × String) :=
  (splitChar '&' s.data).filterMap (fun nv =>
    match nv with
    | [] => none
    | _ =>
      let name := nv.takeWhile (· ≠ '=')
      let value := (nv.dropWhile (· ≠ '=')).drop 1
      some (unquotePlus ⟨name⟩, unquotePlus ⟨value⟩))

/-- The value list `parse_qs(body, keep_blank_values=True)` associates with
one field name, in order of appearance. -/
def formValues (s : String) (k : String) : List String :=
  (parseQsl s).filterMap (fun p => if p.1 = k then some p.2 else none)

/-- Line 48 and 57 of `src/webhook/app.py`:
`"payload" in form and form["payload"]` followed by `form["payload"][0]` —
the first value of the `payload` field, when the field exists. -/
def formPayloadField (s : String) : Option String :=
  match formValues s "payload" with
  | [] => none
  | v :: _ => some v

/-! ## JSON parsing (model of `json.loads`) -/

/-- Drop JSON whitespace. -/
def dropWs (cs : List Char) : List Char :=
  cs.dropWhile (fun c => c = ' ' || c = '\t' || c = '\n' || c = '\r')

/-- Parse the body of a JSON string literal after the opening quote,
accumulating characters in reverse.  Python's `json.loads` additionally
accepts lone UTF-16 surrogate escapes (unrepresentable in a Lean `Char`);
those are modelled as parse errors, the dispatcher never relies on them. -/
def jstring : Nat → List Char → List Char → Except String (String × List Char)
  | 0, _, _ => .error "JSONDecodeError: Unterminated string"
  | _ + 1, [], _ => .error "JSONDecodeError: Unterminated string"
  | fuel + 1, c :: rest, acc =>
    if c = '"' then .ok (⟨acc.reverse⟩, rest)
    else if c = '\\' then
      match rest with
      | [] => .error "JSONDecodeError: Unterminated string"
      | e :: rest2 =>
        if e = '"' then jstring fuel rest2 ('"' :: acc)
        else if e = '\\' then jstring fuel rest2 ('\\' :: acc)
        else if e = '/' then jstring fuel rest2 ('/' :: acc)
        else if e = 'b' then jstring fuel rest2 (Char.ofNat 8 :: acc)
        else if e = 'f' then jstring fuel rest2 (Char.ofNat 12 :: acc)
        else if e = 'n' then jstring fuel rest2 ('\n' :: acc)
        else if e = 'r' then jstring fuel rest2 ('\r' :: acc)
        else if e = 't' then jstring fuel rest2 ('\t' :: acc)
        else if e = 'u' then
          match rest2 with
          | h1 :: h2 :: h3 :: h4 :: rest3 =>
            match hexVal h1, hexVal h2, hexVal h3, hexVal h4 with
            | some a, some b, some c', some d =>
              let n := a * 4096 + b * 256 + c' * 16 + d
              if 0xD800 ≤ n && n < 0xE000 then
                .error "JSONDecodeError: surrogate escape not modelled"
              else jstring fuel rest3 (Char.ofNat n :: acc)
            | _, _, _, _ => .error "JSONDecodeError: Invalid unicode escape"
          | _ => .error "JSONDecodeError: Invalid unicode escape"
        else .error "JSONDecodeError: Invalid escape"
    else if c.toNat < 32 then .error "JSONDecodeError: Invalid control character"
    else jstring fuel rest (c :: acc)

/-- Parse a JSON integer literal.  CPython also accepts fractions and
exponents (floats); the dispatcher payloads carry none, and the model
rejects them. -/
def jnumber (cs : List Char) : Except String (Json × List Char) :=
  let (neg, cs1) := match cs with
    | '-' :: t => (true, t)
    | _ => (false, cs)
  let digits := cs1.takeWhile Char.isDigit
  let rest := cs1.dropWhile Char.isDigit
  match digits with
  | [] => .error "JSONDecodeError: Expecting value"
  | d0 :: ds =>
    if d0 = '0' ∧ ds ≠ [] then .error "JSONDecodeError: Extra data"
    else
      match rest with
      | '.' :: _ => .error "JSONDecodeError: non-integer number not modelled"
      | 'e' :: _ => .error "JSONDecodeError: non-integer number not modelled"
      | 'E' :: _ => .error "JSONDecodeError: non-integer number not modelled"
      | _ =>
        let n : Nat := digits.foldl (fun a c => a * 10 + (c.toNat - 48)) 0
        .ok (Json.num (if neg then -(n : Int) else (n : Int)), rest)

mutual

def jvalue : Nat → List Char → Except String (Json × List Char)
  | 0, _ => .error "JSONDecodeError: nesting fuel exhausted"
  | fuel + 1, cs =>
    match dropWs cs with
    | [] => .error "JSONDecodeError: Expecting value"
    | '{' :: rest => jobject fuel rest true []
    | '[' :: rest => jarray fuel rest true []
    | '"' :: rest =>
      match jstring (rest.length + 1) rest [] with
      | .ok (s, r) => .ok (Json.str s, r)
      | .error e => .error e
    | 'n' :: rest =>
      if ['u','l','l'].isPrefixOf rest then .ok (Json.null, rest.drop 3)
      else .error "JSONDecodeError: Expecting value"
    | 't' :: rest =>
      if ['r','u','e'].isPrefixOf rest then .ok (Json.bool true, rest.drop 3)
      else .error "JSONDecodeError: Expecting value"
    | 'f' :: rest =>
      if ['a','l','s','e'].isPrefixOf rest then .ok (Json.bool false, rest.drop 4)
      else .error "JSONDecodeError: Expecting value"
    | c :: rest =>
      if c = '-' || c.isDigit then jnumber (c :: rest)
      else .error "JSONDecodeError: Expecting value"

def jarray : Nat → List Char → Bool → List Json → Except String (Json × List Char)
  | 0, _, _, _ => .error "JSONDecodeError: nesting fuel exhausted"
  | fuel + 1, cs, first, acc =>
    match first, dropWs cs with
    | true, ']' :: rest => .ok (Json.arr [], rest)
    | _, cs' =>
      match jvalue fuel cs' with
      | .error e => .error e
      | .ok (v, r) =>
        match dropWs r with
        | ',' :: r2 => jarray fuel r2 false (v :: acc)
        | ']' :: r2 => .ok (Json.arr (v :: acc).reverse, r2)
        | _ => .error "JSONDecodeError: Expecting comma delimiter"

def jobject : Nat → List Char → Bool → List (String × Json) → Except String (Json × List Char)
  | 0, _, _, _ => .error "JSONDecodeError: nesting fuel exhausted"
  | fuel + 1, cs, first, acc =>
    match first, dropWs cs with
    | true, '}' :: rest => .ok (Json.obj [], rest)
    | _, cs' =>
      match cs' with
      | '"' :: rest =>
        match jstring (rest.length + 1) rest [] with
        | .error e => .error e
        | .ok (k, r) =>
          match dropWs r with
          | ':' :: r2 =>
            match jvalue fuel r2 with
            | .error e => .error e
            | .ok (v, r3) =>
              match dropWs r3 with
              | ',' :: r4 => jobject fuel r4 false ((k, v) :: acc)
              | '}' :: r4 => .ok (Json.obj ((k, v) :: acc).reverse, r4)
              | _ => .error "JSONDecodeError: Expecting comma delimiter"
          | _ => .error "JSONDecodeError: Expecting colon delimiter"
      | _ => .error "JSONDecodeError: Expecting property name"

end

/-- Model of `json.loads`: parse one value, then require only whitespace to
remain. -/
def jsonLoads (s : String) : Except String Json :=
  match jvalue (s.data.length + 2) s.data with
  | .error e => .error e
  | .ok (v, rest) =>
    match dropWs rest with
    | [] => .ok v
    | _ => .error "JSONDecodeError: Extra data"

/-! ## Signature verifier (`_verify_github_signature`, lines 26-37) -/

/-- Model of `hmac.compare_digest` on strings: a timing-balanced comparison
whose result is plain equality. -/
def compareDigest (a b : String) : Bool := a == b

/-- Lines 26-37 of `src/webhook/app.py`: extract the signature header, reject
a falsy value or a missing `sha256=` prefix, else compare against the
expected `"sha256=" + HMAC-SHA256(secret, raw_body).hexdigest()`. -/
def _verify_github_signature (headers : List (String × String)) (raw_body : List Nat)
    (secret : String) : Bool :=
  match _get_header headers "X-Hub-Signature-256" with
  | none => false
  | some sig256 =>
    if sig256 = "" then false
    else if !(pyStartswith sig256 "sha256=") then false
    else compareDigest ("sha256=" ++ hmacSha256Hex (utf8Encode secret) raw_body) sig256

/-! ## Payload decoder (`_parse_payload`, lines 39-59) -/

/-- Line 40: `(_get_header(headers, "Content-Type") or "").split(";")[0].strip().lower()`. -/
def contentTypeOf (headers : List (String × String)) : String :=
  pyLower (pyStrip (takeBeforeSemi (pyOrDefault (_get_header headers "Content-Type") "")))

/-- Lines 39-59 of `src/webhook/app.py`: dispatch on the declared content
type; for unknown or absent types try JSON first and fall back to the form
`payload` field, re-raising the original JSON error when the field is
missing. -/
def _parse_payload (headers : List (String × String)) (raw_body : List Nat) :
    Except String Json :=
  let content_type := contentTypeOf headers
  let body_text := utf8DecodeReplace raw_body
  if content_type = "application/json" then jsonLoads body_text
  else if content_type = "application/x-www-form-urlencoded" then
    match formPayloadField body_text with
    | some v => jsonLoads v
    | none => .error "ValueError: Form-encoded webhook missing payload field"
  else
    match jsonLoads body_text with
    | .ok v => .ok v
    | .error e =>
      match formPayloadField body_text with
      | some v => jsonLoads v
      | none => .error e

/-! ## Pipeline trigger (`_trigger_pipeline`, lines 93-115) -/

/-- The per-pipeline outcome dict built at lines 104-115: `executionId` is
present exactly on success, `error` exactly on failure. -/
structure TriggerOutcome where
  success : Bool
  pipeline : String
  executionId : Option String
  error : Option String
deriving DecidableEq

/-- Lines 93-115 of `src/webhook/app.py`.  The CodePipeline client is the
explicit parameter `svc`: it returns the execution id of
`start_pipeline_execution` or raises (an `Except.error` carrying `str(e)`).
The fresh `clientRequestToken` drawn from `uuid.uuid4()` does not influence
the recorded outcome and is not modelled. -/
def _trigger_pipeline (svc : String → Except String String) (pipeline_name : String) :
    TriggerOutcome :=
  match svc pipeline_name with
  | .ok executionId => ⟨true, pipeline_name, some executionId, none⟩
  | .error e => ⟨false, pipeline_name, none, some e⟩

/-- The loop at lines 173-176: trigger every selected pipeline in order,
collecting outcomes. -/
def triggerLoop (svc : String → Except String String) : List String → List TriggerOutcome
  | [] => []
  | p :: rest => _trigger_pipeline svc p :: triggerLoop svc rest

/-! ## Dispatcher (`lambda_handler`, lines 117-194) -/

/-- The inbound Lambda proxy event: the fields `lambda_handler` reads.
`headers = none` models an absent/null `headers` key (line 118), `body =
none` an absent/null `body` key (line 18). -/
structure Event where
  headers : Option (List (String × String))
  body : Option String
  isBase64Encoded : Bool

/-- Collaborator invocations observable during one request, in order:
a payload-decode attempt, a routing-policy evaluation, a pipeline trigger. -/
inductive Effect where
  | decode : Effect
  | route : Effect
  | trigger (pipeline : String) : Effect
deriving DecidableEq

/-- Response bodies built by `lambda_handler` (serialised by `json.dumps`,
which is modelled structurally): an error dict, a message dict, or the
push-dispatch result dict of lines 179-188. -/
inductive RespBody where
  | err (msg : String) : RespBody
  | msg (m : String) : RespBody
  | push (repo ref before after : Json) (changed_files_count : Nat)
      (changed_files : List String) (pipelines_triggered : List String)
      (trigger_results : List TriggerOutcome) : RespBody

/-- Whether a body is the push-dispatch result shape. -/
def RespBody.isDispatch : RespBody → Bool
  | .push _ _ _ _ _ _ _ _ => true
  | _ => false

/-- An HTTP-shaped response: status code plus structured body. -/
structure Response where
  statusCode : Nat
  body : RespBody

/-- Lines 17-21 of `src/webhook/app.py`: `event.get("body") or ""`, base64
decoding when flagged (which raises on invalid base64), UTF-8 encoding
otherwise. -/
def _get_raw_body (event : Event) : Except String (List Nat) :=
  let body := pyOrDefault event.body ""
  if event.isBase64Encoded then b64decode body else .ok (utf8Encode body)

/-- Lines 117-194 of `src/webhook/app.py`.  `svc` is the CodePipeline
client, `secret` the value of `os.environ.get("GITHUB_WEBHOOK_SECRET", "")`.
The result pairs the Python outcome (`Except.error` models an exception
escaping `lambda_handler`) with the trace of collaborator effects. -/
def lambda_handler (svc : String → Except String String) (secret : String)
    (event : Event) : Except String Response × List Effect :=
  let headers := event.headers.getD []
  match _get_raw_body event with
  | .error e => (.error e, [])
  | .ok raw_body =>
    if secret = "" then
      (.ok ⟨500, .err "Server misconfigured"⟩, [])
    else if !(_verify_github_signature headers raw_body secret) then
      (.ok ⟨401, .err "Invalid signature"⟩, [])
    else
      match _parse_payload headers raw_body with
      | .error _ => (.ok ⟨400, .err "Invalid payload"⟩, [.decode])
      | .ok payload =>
        let event_type := pyOrDefault (_get_header headers "X-GitHub-Event") "unknown"
        if event_type = "ping" then
          (.ok ⟨200, .msg "pong"⟩, [.decode])
        else if event_type ≠ "push" then
          (.ok ⟨200, .msg ("event " ++ event_type ++ " received")⟩, [.decode])
        else
          match (do
            let repoObj ← pyDictGetD payload "repository" (.obj [])
            let repo ← pyDictGet repoObj "full_name"
            let before ← pyDictGet payload "before"
            let after ← pyDictGet payload "after"
            let ref ← pyDictGet payload "ref"
            let changed ← _changed_files_from_push_payload payload
            pure (repo, before, after, ref, changed) :
              Except String (Json × Json × Json × Json × List String)) with
          | .error e => (.error e, [.decode])
          | .ok (repo, before, after, ref, changed_files) =>
            let pipelines_to_trigger := _determine_pipelines_to_trigger changed_files
            let triggered_results := triggerLoop svc pipelines_to_trigger
            (.ok ⟨200, .push repo ref before after changed_files.length
                    (changed_files.take 50) pipelines_to_trigger triggered_results⟩,
             [.decode, .route] ++ pipelines_to_trigger.map Effect.trigger)

/-! ## Concrete fixtures used by witnesses and counterexamples -/

/-- A CodePipeline client stub that always succeeds. -/
def svcOk : String → Except String String := fun _ => .ok "exec-1"

/-- A CodePipeline client stub that fails for `lambda1-pipeline` only. -/
def svcMix : String → Except String String := fun n =>
  if n = "lambda1-pipeline" then .error "AccessDeniedException" else .ok "exec-2"

/-- A correctly signed (secret `"s"`) push event whose JSON body is the
non-object `123`. -/
def evCrash : Event :=
  ⟨some [("X-Hub-Signature-256", "sha256=18998337dade6ea85a1c8241bbdf89392c6356ef21088a2c32f07e7960b2dcaf"),
         ("Content-Type", "application/json"),
         ("X-GitHub-Event", "push")],
   some "123", false⟩

/-- A correctly signed (secret `"s"`) event with JSON body `{}` and no
`X-GitHub-Event` header. -/
def evUnknown : Event :=
  ⟨some [("X-Hub-Signature-256", "sha256=143ca8d517ba1b181025d732b1cf275d90104fca57bb02a565542978aa18c4b6"),
         ("Content-Type", "application/json")],
   some "\x7b\x7d", false⟩

/-- A correctly signed (secret `"s"`) push event whose single commit adds a
shared-layer file, selecting both pipelines. -/
def evPush : Event :=
  ⟨some [("X-Hub-Signature-256", "sha256=25d22dd016ab4a8979b6218528a5992736a11df60bde351cdde63af7c1bf3a8f"),
         ("Content-Type", "application/json"),
         ("X-GitHub-Event", "push")],
   some "\x7b\"commits\":[\x7b\"added\":[\"layers/shared/u.py\"]\x7d]\x7d", false⟩

/-- An unsigned event (no signature header). -/
def evNoSig : Event := ⟨some [("Content-Type", "application/json")], some "\x7b\x7d", false⟩

/-- A flagged-base64 event whose body is not valid base64. -/
def evBadB64 : Event := ⟨none, some "a", true⟩

/-- The response `lambda_handler` computes for `evPush` under `svcMix`:
status 200 with one failed and one successful trigger outcome. -/
def rPushMix : Response :=
  ⟨200, .push Json.null Json.null Json.null Json.null 1 ["layers/shared/u.py"]
      ["lambda1-pipeline", "lambda2-pipeline"]
      [⟨false, "lambda1-pipeline", none, some "AccessDeniedException"⟩,
       ⟨true, "lambda2-pipeline", some "exec-2", none⟩]⟩

/-- The effect trace of `evPush` under `svcMix`: decode, route, then both
triggers. -/
def fxPushMix : List Effect :=
  [.decode, .route, .trigger "lambda1-pipeline", .trigger "lambda2-pipeline"]

/-! # Theorems -/

/-! ## C1 — routing policy -/

/-- C1, counterexample: the code tests `'lambda1/' in f` (substring), not
`f.startswith('lambda1/')`.  The changed path `docs/lambda1/notes.md` starts
with no declared prefix (neither an ownership prefix nor the shared prefix),
yet `lambda1-pipeline` is selected — refuting the claimed
selected-iff-some-path-starts-with-a-prefix equivalence. -/
theorem c1_startswith_cex :
    "lambda1-pipeline" ∈ _determine_pipelines_to_trigger ["docs/lambda1/notes.md"] ∧
    pyStartswith "docs/lambda1/notes.md" "lambda1/" = false ∧
    pyStartswith "docs/lambda1/notes.md" "lambda2/" = false ∧
    pyStartswith "docs/lambda1/notes.md" "layers/shared/" = false := by
  refine ⟨?_, by decide, by decide, by decide⟩
  decide

/-- C1 (amended): a pipeline is selected iff some changed path contains the
shared prefix `layers/shared/` as a substring (fan-out to both pipelines) or
contains that pipeline's own prefix (`lambda1/` resp. `lambda2/`) as a
substring; no other pipeline is ever selected, and paths under an unrelated
prefix such as `README.md` select no pipeline. -/
theorem c1_selection_membership :
    (∀ (changed_files : List String) (p : String),
      p ∈ _determine_pipelines_to_trigger changed_files ↔
        ((p = "lambda1-pipeline" ∧
           (shared_changed changed_files = true ∨
            changed_files.any (fun f => strContains f "lambda1/") = true)) ∨
         (p = "lambda2-pipeline" ∧
           (shared_changed changed_files = true ∨
            changed_files.any (fun f => strContains f "lambda2/") = true)))) ∧
    _determine_pipelines_to_trigger ["README.md"] = [] := by
  constructor
  · intro cf p
    unfold _determine_pipelines_to_trigger
    by_cases h1 : shared_changed cf = true <;>
      by_cases h2 : cf.any (fun f => strContains f "lambda1/") = true <;>
        by_cases h3 : cf.any (fun f => strContains f "lambda2/") = true <;>
          simp [h1, h2, h3]
  · decide

/-! ## C8 — surfaced selection order -/

/-- C8, counterexample: `list(pipelines)` at line 91 iterates a CPython set,
whose order is unspecified (string hashing is randomised per process); both
orders of the two selected pipelines are admissible outputs, and one of them
is not lexicographically sorted — refuting the claimed deterministic sorted
sequence. -/
theorem c8_unsorted_output_cex :
    determineOutputs ["layers/shared/u.py"] ["lambda2-pipeline", "lambda1-pipeline"] ∧
    determineOutputs ["layers/shared/u.py"] ["lambda1-pipeline", "lambda2-pipeline"] ∧
    ¬ List.Sorted strLeP ["lambda2-pipeline", "lambda1-pipeline"] := by
  refine ⟨?_, ?_, by decide⟩ <;> (unfold determineOutputs; decide)

/-- C8 (amended): the selection is deterministic as a set — every admissible
surfaced list is duplicate-free and has exactly the membership computed from
the changed files — but its order is an unspecified permutation of the
selected identifiers, with no lexicographic-sorting guarantee; triggers run
in whatever order is surfaced. -/
theorem c8_selection_set_deterministic :
    ∀ (changed_files out : List String),
      determineOutputs changed_files out →
      out.Nodup ∧ ∀ p, p ∈ out ↔ p ∈ _determine_pipelines_to_trigger changed_files := by
  intro cf out h
  have hnd : (_determine_pipelines_to_trigger cf).Nodup := by
    unfold _determine_pipelines_to_trigger
    by_cases h1 : (shared_changed cf || cf.any fun f => strContains f "lambda1/") = true <;>
      by_cases h2 : (shared_changed cf || cf.any fun f => strContains f "lambda2/") = true <;>
        simp [h1, h2]
  exact ⟨h.nodup_iff.mpr hnd, fun p => h.mem_iff⟩

/-- Witness for C8: instantiating the amended theorem at the shared-layer
change and the reversed output order. -/
theorem c8_selection_set_deterministic_witness :
    (["lambda2-pipeline", "lambda1-pipeline"] : List String).Nodup ∧
    ("lambda1-pipeline" ∈ (["lambda2-pipeline", "lambda1-pipeline"] : List String) ↔
      "lambda1-pipeline" ∈ _determine_pipelines_to_trigger ["layers/shared/u.py"]) := by
  have h := c8_selection_set_deterministic ["layers/shared/u.py"]
    ["lambda2-pipeline", "lambda1-pipeline"] (by unfold determineOutputs; decide)
  exact ⟨h.1, h.2 "lambda1-pipeline"⟩

/-! ## C9 — header lookup casing -/

/-- C9, counterexample: lookup tries only the exact, all-lower and all-upper
spellings of the header name.  A mixed-case incoming header key (the claim's
own example casing) is not found — refuting the claimed fully
case-insensitive lookup. -/
theorem c9_mixed_case_missed_cex :
    _get_header [("X-hub-signature-256", "v")] "X-Hub-Signature-256" = none := by
  decide

/-- C9 (amended): lookup finds the value when the incoming header key is
spelled exactly as requested, all-lowercase, or all-uppercase (for any
non-empty value); other mixed-case spellings are missed. -/
theorem c9_header_lookup_casings :
    ∀ (name v : String), v ≠ "" →
      _get_header [(name, v)] name = some v ∧
      _get_header [(pyLower name, v)] name = some v ∧
      _get_header [(pyUpper name, v)] name = some v := by
  intro name v hv
  refine ⟨?_, ?_, ?_⟩
  · simp [_get_header, dictGet, pyOrOpt, hv]
  · by_cases h : name = pyLower name
    · rw [← h]
      simp [_get_header, dictGet, pyOrOpt, hv]
    · simp [_get_header, dictGet, h, pyOrOpt, hv]
  · by_cases h : name = pyUpper name
    · rw [← h]
      simp [_get_header, dictGet, pyOrOpt, hv]
    · by_cases h2 : pyLower name = pyUpper name
      · simp [_get_header, dictGet, h, h2, pyOrOpt, hv]
      · simp [_get_header, dictGet, h, h2, pyOrOpt, hv]

/-- Witness for C9: the signature header stored lowercase is found under its
canonical mixed-case name. -/
theorem c9_header_lookup_casings_witness :
    _get_header [("x-hub-signature-256", "sig")] "X-Hub-Signature-256" = some "sig" := by
  have h := (c9_header_lookup_casings "X-Hub-Signature-256" "sig" (by decide)).2.1
  rw [show pyLower "X-Hub-Signature-256" = "x-hub-signature-256" from by decide] at h
  exact h

/-! ## C2 — signature verification -/

theorem isPrefixOf_self_append (l t : List Char) : l.isPrefixOf (l ++ t) = true := by
  rw [List.isPrefixOf_iff_prefix]
  exact l.prefix_append t

theorem sha_prefix_ne_empty (d : String) : "sha256=" ++ d ≠ "" := by
  intro h
  have hd := congrArg String.data h
  rw [String.data_append] at hd
  simp at hd

/-- C2, counterexample: with the empty secret, verification is not rejected —
it proceeds with the empty HMAC key, and a header carrying the matching
empty-key digest verifies successfully, refuting the claim that an empty
secret misused as the signing key returns false. -/
theorem c2_empty_secret_cex :
    _verify_github_signature
      [("X-Hub-Signature-256",
        "sha256=b613679a0814d9ec772f95d778c35fc5ff1697c493715653c6c712144292c5ad")]
      [] "" = true := by
  rfl

/-- C2 (amended): for every headers map, raw body and secret — the empty
secret included — verify returns true iff the supplied signature header value
equals `sha256=` followed by the hex HMAC-SHA256 digest of the raw body under
the secret; in particular it returns false, never raising, when the header is
absent or lacks the prefix.  An empty secret is not specially rejected, so
configuration must be pre-checked by the caller. -/
theorem c2_verify_iff :
    ∀ (headers : List (String × String)) (raw_body : List Nat) (secret : String),
      _verify_github_signature headers raw_body secret = true ↔
        _get_header headers "X-Hub-Signature-256" =
          some ("sha256=" ++ hmacSha256Hex (utf8Encode secret) raw_body) := by
  intro headers raw_body secret
  unfold _verify_github_signature
  cases hh : _get_header headers "X-Hub-Signature-256" with
  | none => simp
  | some s =>
    simp only [Option.some_inj]
    constructor
    · intro hver
      by_cases h0 : s = ""
      · rw [if_pos h0] at hver; exact absurd hver (by simp)
      · rw [if_neg h0] at hver
        by_cases h1 : pyStartswith s "sha256=" = true
        · rw [h1] at hver
          simp only [Bool.not_true, Bool.false_eq_true, if_false] at hver
          have := (beq_iff_eq).mp hver
          exact this.symm
        · rw [Bool.not_eq_true] at h1
          rw [h1] at hver
          simp at hver
    · intro heq
      subst heq
      rw [if_neg (sha_prefix_ne_empty _)]
      have hsw : pyStartswith ("sha256=" ++ hmacSha256Hex (utf8Encode secret) raw_body)
          "sha256=" = true := by
        unfold pyStartswith
        rw [String.data_append]
        exact isPrefixOf_self_append _ _
      rw [hsw]
      simp only [Bool.not_true, Bool.false_eq_true, if_false]
      exact beq_self_eq_true _

/-! ## C7 — change extraction -/

theorem mapM_loop_asPathStr (l : List String) (acc : List String) :
    List.mapM.loop asPathStr (l.map Json.str) acc = Except.ok (acc.reverse ++ l) := by
  induction l generalizing acc with
  | nil => simp [List.mapM.loop, Pure.pure, Except.pure]
  | cons a t ih => simp [List.mapM.loop, asPathStr, ih, Bind.bind, Except.bind]

theorem dictGetD_commit (c : CommitRec) :
    pyDictGetD (commitJson c) "added" (.arr []) =
      .ok ((c.added.map (fun l => Json.arr (l.map Json.str))).getD (.arr [])) ∧
    pyDictGetD (commitJson c) "modified" (.arr []) =
      .ok ((c.modified.map (fun l => Json.arr (l.map Json.str))).getD (.arr [])) ∧
    pyDictGetD (commitJson c) "removed" (.arr []) =
      .ok ((c.removed.map (fun l => Json.arr (l.map Json.str))).getD (.arr [])) := by
  rcases c with ⟨a, m, r⟩
  cases a <;> cases m <;> cases r <;>
    simp [commitJson, optField, pyDictGetD, jsonLookup]

theorem kindPaths_of_lookup (c : Json) (k : String) (ol : Option (List String))
    (h : pyDictGetD c k (.arr []) =
      .ok ((ol.map (fun l => Json.arr (l.map Json.str))).getD (.arr []))) :
    kindPaths c k = .ok (ol.getD []) := by
  cases ol with
  | none =>
    simp at h
    simp [kindPaths, h, Bind.bind, Except.bind, pyTruthy, pyIterJson, List.mapM,
      List.mapM.loop, Pure.pure, Except.pure]
  | some l =>
    cases l with
    | nil =>
      simp at h
      simp [kindPaths, h, Bind.bind, Except.bind, pyTruthy, pyIterJson, List.mapM,
        List.mapM.loop, Pure.pure, Except.pure]
    | cons p ps =>
      simp at h
      simp [kindPaths, h, Bind.bind, Except.bind, pyTruthy, pyIterJson, List.mapM]
      simpa using mapM_loop_asPathStr (p :: ps) []

theorem commitPathsJson_commitJson (c : CommitRec) :
    commitPathsJson (commitJson c) = .ok (commitPaths c) := by
  have h := dictGetD_commit c
  have ka := kindPaths_of_lookup _ _ _ h.1
  have km := kindPaths_of_lookup _ _ _ h.2.1
  have kr := kindPaths_of_lookup _ _ _ h.2.2
  simp [commitPathsJson, ka, km, kr, Bind.bind, Except.bind, commitPaths,
    Pure.pure, Except.pure]

theorem mapM_loop_commits (cs : List CommitRec) (acc : List (List String)) :
    List.mapM.loop commitPathsJson (cs.map commitJson) acc =
      Except.ok (acc.reverse ++ cs.map commitPaths) := by
  induction cs generalizing acc with
  | nil => simp [List.mapM.loop, Pure.pure, Except.pure]
  | cons a t ih =>
    simp [List.mapM.loop, commitPathsJson_commitJson, ih, Bind.bind, Except.bind]

theorem changed_files_pushJson (ocs : Option (List CommitRec)) :
    _changed_files_from_push_payload (pushJson ocs) = .ok (pySortedSet (allPaths ocs)) := by
  cases ocs with
  | none => rfl
  | some cs =>
    cases cs with
    | nil => rfl
    | cons c cs' =>
      have h := mapM_loop_commits (c :: cs') []
      simp at h
      simp [_changed_files_from_push_payload, pushJson, pyDictGetD, jsonLookup, pyTruthy,
        pyIterJson, Bind.bind, Except.bind, Pure.pure, Except.pure, List.mapM, h, allPaths]

theorem pySortedSet_sorted (l : List String) : List.Sorted strLeP (pySortedSet l) :=
  List.sorted_insertionSort strLeP l.dedup

theorem pySortedSet_nodup (l : List String) : (pySortedSet l).Nodup :=
  ((List.perm_insertionSort strLeP l.dedup).nodup_iff).mpr l.nodup_dedup

theorem pySortedSet_mem (l : List String) (a : String) : a ∈ pySortedSet l ↔ a ∈ l := by
  unfold pySortedSet
  rw [(List.perm_insertionSort strLeP l.dedup).mem_iff]
  exact List.mem_dedup

theorem pySortedSet_perm {l₁ l₂ : List String} (h : l₁.Perm l₂) :
    pySortedSet l₁ = pySortedSet l₂ :=
  List.eq_of_perm_of_sorted
    ((List.perm_insertionSort strLeP l₁.dedup).trans
      (h.dedup.trans (List.perm_insertionSort strLeP l₂.dedup).symm))
    (pySortedSet_sorted l₁) (pySortedSet_sorted l₂)

/-- C7: on every structured push payload (commit records with optional
`added`/`modified`/`removed` path lists, the `commits` list itself possibly
absent), extraction never fails and returns the lexicographically sorted,
duplicate-free sequence of exactly the paths appearing in some commit's kind
list; permuting the commit list leaves the result unchanged. -/
theorem c7_extract_sorted_dedup :
    ∀ ocs : Option (List CommitRec),
      _changed_files_from_push_payload (pushJson ocs) = .ok (pySortedSet (allPaths ocs)) ∧
      List.Sorted strLeP (pySortedSet (allPaths ocs)) ∧
      (pySortedSet (allPaths ocs)).Nodup ∧
      (∀ p, p ∈ pySortedSet (allPaths ocs) ↔ p ∈ allPaths ocs) ∧
      (∀ cs₁ cs₂ : List CommitRec, cs₁.Perm cs₂ →
        _changed_files_from_push_payload (pushJson (some cs₁)) =
          _changed_files_from_push_payload (pushJson (some cs₂))) := by
  intro ocs
  refine ⟨changed_files_pushJson ocs, pySortedSet_sorted _, pySortedSet_nodup _,
    fun p => pySortedSet_mem _ p, ?_⟩
  intro cs₁ cs₂ hperm
  rw [changed_files_pushJson (some cs₁), changed_files_pushJson (some cs₂)]
  exact congrArg Except.ok (pySortedSet_perm ((hperm.map commitPaths).flatten))

/-- Witness for C7: a two-commit payload with a duplicated path extracts to
the sorted deduplicated list, and swapping the commits leaves the result
unchanged. -/
theorem c7_extract_sorted_dedup_witness :
    _changed_files_from_push_payload
        (pushJson (some [⟨some ["b", "a"], none, some ["a"]⟩])) = Except.ok ["a", "b"] ∧
    _changed_files_from_push_payload
        (pushJson (some [⟨some ["b"], none, none⟩, ⟨none, some ["a"], none⟩])) =
      _changed_files_from_push_payload
        (pushJson (some [⟨none, some ["a"], none⟩, ⟨some ["b"], none, none⟩])) := by
  constructor
  · rw [(c7_extract_sorted_dedup (some [⟨some ["b", "a"], none, some ["a"]⟩])).1]
    rfl
  · exact (c7_extract_sorted_dedup none).2.2.2.2 _ _
      (List.Perm.swap (⟨none, some ["a"], none⟩ : CommitRec) (⟨some ["b"], none, none⟩ : CommitRec) [])

/-! ## C6 — payload decode policy -/

/-- C6: for a body whose content type is absent or neither JSON nor
form-encoded, decoding attempts a JSON parse first and only on its failure
attempts the form `payload`-field fallback, propagating the original parse
error when the field is missing; for a form-encoded content type, a missing
`payload` field is the declared decode error and an empty `payload` value is
a decode error, never a success. -/
theorem c6_decode_policy :
    ∀ (headers : List (String × String)) (raw_body : List Nat),
      (contentTypeOf headers ≠ "application/json" →
       contentTypeOf headers ≠ "application/x-www-form-urlencoded" →
        (∀ v, jsonLoads (utf8DecodeReplace raw_body) = .ok v →
          _parse_payload headers raw_body = .ok v) ∧
        (∀ e, jsonLoads (utf8DecodeReplace raw_body) = .error e →
          _parse_payload headers raw_body =
            (match formPayloadField (utf8DecodeReplace raw_body) with
             | some pv => jsonLoads pv
             | none => .error e))) ∧
      (contentTypeOf headers = "application/x-www-form-urlencoded" →
        (formPayloadField (utf8DecodeReplace raw_body) = none →
          _parse_payload headers raw_body =
            .error "ValueError: Form-encoded webhook missing payload field") ∧
        (formPayloadField (utf8DecodeReplace raw_body) = some "" →
          ∃ e, _parse_payload headers raw_body = .error e)) := by
  intro headers raw_body
  constructor
  · intro h1 h2
    constructor
    · intro v hv
      simp [_parse_payload, h1, h2, hv]
    · intro e he
      simp [_parse_payload, h1, h2, he]
  · intro hct
    constructor
    · intro hf
      simp [_parse_payload, hct, hf]
    · intro hf
      simp [_parse_payload, hct, hf]
      exact ⟨_, rfl⟩

/-- Witness for C6: content type `text/plain`, body `payload=\x7b\x7d` — the
JSON attempt fails, the form fallback finds the `payload` field, and its
value decodes to the empty object. -/
theorem c6_decode_policy_witness :
    _parse_payload [("Content-Type", "text/plain")] (utf8Encode "payload=\x7b\x7d") =
      .ok (Json.obj []) := by
  have h := ((c6_decode_policy [("Content-Type", "text/plain")]
      (utf8Encode "payload=\x7b\x7d")).1 (by decide) (by decide)).2
    "JSONDecodeError: Expecting value" (by rfl)
  rw [h]
  rfl

/-! ## C5 — authentication gating -/

/-- C5, counterexample: the raw body is extracted before the configuration
check, and a flagged-base64 body that is not valid base64 raises there; with
the secret missing the handler then produces no response at all instead of
the claimed 500 — refuting the for-every-request claim. -/
theorem c5_rawbody_crash_cex :
    lambda_handler svcOk "" evBadB64 =
      (.error "binascii.Error: Invalid base64-encoded string", []) ∧
    (lambda_handler svcOk "" evBadB64).1 ≠
      Except.ok ⟨500, RespBody.err "Server misconfigured"⟩ := by
  refine ⟨rfl, ?_⟩
  intro h
  have heval : (lambda_handler svcOk "" evBadB64).1 =
      Except.error "binascii.Error: Invalid base64-encoded string" := rfl
  rw [heval] at h
  exact Except.noConfusion h

/-- C5 (amended): provided raw-body extraction succeeds, a missing secret
yields the 500 response before any signature check and with no decode, route
or trigger work, and an invalid or missing signature yields the 401 response
with no decode, route or trigger work performed. -/
theorem c5_auth_gate :
    ∀ (svc : String → Except String String) (secret : String) (event : Event)
      (rb : List Nat), _get_raw_body event = .ok rb →
      (secret = "" →
        lambda_handler svc secret event = (.ok ⟨500, .err "Server misconfigured"⟩, [])) ∧
      (secret ≠ "" →
        _verify_github_signature (event.headers.getD []) rb secret = false →
        lambda_handler svc secret event = (.ok ⟨401, .err "Invalid signature"⟩, [])) := by
  intro svc secret event rb hrb
  constructor
  · intro hs
    simp [lambda_handler, hrb, hs]
  · intro hs hv
    simp [lambda_handler, hrb, hs, hv]

/-- Witness for C5: an unsigned request under a missing secret gets 500, and
under the configured secret gets 401, with an empty effect trace both ways. -/
theorem c5_auth_gate_witness :
    lambda_handler svcOk "" evNoSig = (.ok ⟨500, .err "Server misconfigured"⟩, []) ∧
    lambda_handler svcOk "s" evNoSig = (.ok ⟨401, .err "Invalid signature"⟩, []) := by
  constructor
  · exact (c5_auth_gate svcOk "" evNoSig (utf8Encode "\x7b\x7d") rfl).1 rfl
  · exact (c5_auth_gate svcOk "s" evNoSig (utf8Encode "\x7b\x7d") rfl).2 (by decide) rfl

/-! ## C10 — absent event-type header -/

/-- C10: on every authenticated, successfully decoded request with no
event-type header, the handler classifies the event as `unknown` and returns
status 200 with body message `event unknown received`, performing decode
work only — no routing and no trigger calls. -/
theorem c10_unknown_event :
    ∀ (svc : String → Except String String) (secret : String) (event : Event)
      (rb : List Nat),
      secret ≠ "" →
      _get_raw_body event = .ok rb →
      _verify_github_signature (event.headers.getD []) rb secret = true →
      (∃ p, _parse_payload (event.headers.getD []) rb = .ok p) →
      _get_header (event.headers.getD []) "X-GitHub-Event" = none →
      lambda_handler svc secret event =
        (.ok ⟨200, .msg "event unknown received"⟩, [.decode]) := by
  intro svc secret event rb hs hrb hv hp hev
  obtain ⟨p, hp⟩ := hp
  simp [lambda_handler, hrb, hs, hv, hp, hev, pyOrDefault]

/-- Witness for C10: the signed `\x7b\x7d` body with no `X-GitHub-Event`
header produces exactly the `event unknown received` 200 response. -/
theorem c10_unknown_event_witness :
    lambda_handler svcOk "s" evUnknown =
      (.ok ⟨200, .msg "event unknown received"⟩, [.decode]) := by
  exact c10_unknown_event svcOk "s" evUnknown (utf8Encode "\x7b\x7d")
    (by decide) rfl rfl ⟨Json.obj [], rfl⟩ rfl

/-! ## C4 — trigger-failure isolation -/

theorem triggerLoop_length (svc : String → Except String String) (ps : List String) :
    (triggerLoop svc ps).length = ps.length := by
  induction ps with
  | nil => rfl
  | cons p t ih => simp [triggerLoop, ih]

theorem triggerLoop_getD (svc : String → Except String String) (ps : List String)
    (i : Nat) (h : i < ps.length) :
    (triggerLoop svc ps).getD i ⟨true, "", none, none⟩ =
      _trigger_pipeline svc (ps.getD i "") := by
  induction ps generalizing i with
  | nil => simp at h
  | cons p t ih =>
    cases i with
    | zero => simp [triggerLoop]
    | succ n =>
      simp only [triggerLoop, List.getD_cons_succ]
      exact ih n (by simpa using h)

theorem trigger_pipeline_name (svc : String → Except String String) (n : String) :
    (_trigger_pipeline svc n).pipeline = n := by
  unfold _trigger_pipeline
  cases svc n <;> rfl

theorem trigger_pipeline_error (svc : String → Except String String) (n e : String)
    (h : svc n = .error e) :
    (_trigger_pipeline svc n).success = false ∧
      (_trigger_pipeline svc n).error = some e := by
  unfold _trigger_pipeline
  rw [h]
  exact ⟨rfl, rfl⟩

/-- C4: a downstream failure while triggering one pipeline is caught and
recorded as a failed outcome carrying the error string, every pipeline in the
selection is still attempted — one outcome per selected pipeline, in
selection order — and a dispatch response always carries status 200
regardless of trigger outcomes. -/
theorem c4_trigger_isolation :
    (∀ (svc : String → Except String String) (ps : List String) (i : Nat),
      i < ps.length →
      (triggerLoop svc ps).length = ps.length ∧
      ((triggerLoop svc ps).getD i ⟨true, "", none, none⟩).pipeline = ps.getD i "" ∧
      (∀ e, svc (ps.getD i "") = .error e →
        ((triggerLoop svc ps).getD i ⟨true, "", none, none⟩).success = false ∧
        ((triggerLoop svc ps).getD i ⟨true, "", none, none⟩).error = some e)) ∧
    (∀ (svc : String → Except String String) (secret : String) (event : Event)
      (r : Response) (fx : List Effect),
      lambda_handler svc secret event = (.ok r, fx) →
      r.body.isDispatch = true → r.statusCode = 200) := by
  constructor
  · intro svc ps i h
    refine ⟨triggerLoop_length svc ps, ?_, ?_⟩
    · rw [triggerLoop_getD svc ps i h]
      exact trigger_pipeline_name svc _
    · intro e he
      rw [triggerLoop_getD svc ps i h]
      exact trigger_pipeline_error svc _ e he
  · intro svc secret event r fx h hdisp
    unfold lambda_handler at h
    simp only [] at h
    split at h
    · injection h with h1 h2
      exact Except.noConfusion h1
    · split at h
      · injection h with h1 h2
        injection h1 with h1
        subst h1
        simp [RespBody.isDispatch] at hdisp
      · split at h
        · injection h with h1 h2
          injection h1 with h1
          subst h1
          simp [RespBody.isDispatch] at hdisp
        · split at h
          · injection h with h1 h2
            injection h1 with h1
            subst h1
            simp [RespBody.isDispatch] at hdisp
          · split at h
            · injection h with h1 h2
              injection h1 with h1
              subst h1
              simp [RespBody.isDispatch] at hdisp
            · split at h
              · injection h with h1 h2
                injection h1 with h1
                subst h1
                simp [RespBody.isDispatch] at hdisp
              · split at h
                · injection h with h1 h2
                  exact Except.noConfusion h1
                · injection h with h1 h2
                  injection h1 with h1
                  subst h1
                  rfl

/-- Witness for C4: under the client stub failing `lambda1-pipeline` only,
the shared-layer push records a failed first outcome carrying the error
string, still attempts and names the second pipeline, and the dispatch
response status is 200. -/
theorem c4_trigger_isolation_witness :
    ((triggerLoop svcMix ["lambda1-pipeline", "lambda2-pipeline"]).getD 0
        ⟨true, "", none, none⟩).success = false ∧
    ((triggerLoop svcMix ["lambda1-pipeline", "lambda2-pipeline"]).getD 0
        ⟨true, "", none, none⟩).error = some "AccessDeniedException" ∧
    ((triggerLoop svcMix ["lambda1-pipeline", "lambda2-pipeline"]).getD 1
        ⟨true, "", none, none⟩).pipeline = "lambda2-pipeline" ∧
    rPushMix.statusCode = 200 := by
  have h0 := c4_trigger_isolation.1 svcMix ["lambda1-pipeline", "lambda2-pipeline"] 0
    (by decide)
  have herr := h0.2.2 "AccessDeniedException" rfl
  have h1 := c4_trigger_isolation.1 svcMix ["lambda1-pipeline", "lambda2-pipeline"] 1
    (by decide)
  exact ⟨herr.1, herr.2, h1.2.1,
    c4_trigger_isolation.2 svcMix "s" evPush rPushMix fxPushMix rfl rfl⟩

/-! ## C3 — totality of the dispatcher -/

/-- C3, failing input: a correctly signed push request whose JSON body is
the non-object `123` decodes successfully, and then
`payload.get("repository", \x7b\x7d)` raises `AttributeError` — the
exception escapes `lambda_handler` and no HTTP-shaped response is produced,
contradicting the claimed totality (and the `-> dict` annotation of
`_parse_payload`). -/
theorem c3_nonobject_payload_crash :
    lambda_handler svcOk "s" evCrash =
      (.error "AttributeError: value has no attribute get", [Effect.decode]) ∧
    ∀ r : Response, (lambda_handler svcOk "s" evCrash).1 ≠ .ok r := by
  refine ⟨rfl, ?_⟩
  intro r h
  have heval : (lambda_handler svcOk "s" evCrash).1 =
      Except.error "AttributeError: value has no attribute get" := rfl
  rw [heval] at h
  exact Except.noConfusion h
